import Mathlib

/-!
Verification of the orchestration core of the `youtube-whisper` repository
(`yt_transcribe.py`), as a shallow embedding in Lean 4.

The embedding covers:
* `YouTubeTranscriptTool.extract_video_id` (identifier resolver), including a
  faithful model of the two Python regexes it uses;
* the segment formatting and file writing performed by
  `YouTubeTranscriptTool.download_and_transcribe` (output writer);
* `YouTubeTranscriptTool.download_and_transcribe` itself, as a trace-producing
  function parameterised over the outcomes of its external collaborators
  (the `yt-dlp` subprocess and the Whisper model);
* the top-level `main` session controller up to its branch dispatch, together
  with the filesystem effect of `YouTubeTranscriptTool.__init__`.
-/

/-! ## Identifier resolver: `extract_video_id`

The source first tries `re.match(r'^[A-Za-z0-9_-]{11}$', url)` and returns the
input unchanged on success; otherwise it runs
`re.search(r'(?:v=|\/videos\/|embed\/|youtu.be\/|\/v\/|\/e\/|watch\?v=|&v=)([^#\&\?\/]{11})', url)`
and returns the capture group, or raises `ValueError`. -/

/-- Characters of the bare-identifier class `[A-Za-z0-9_-]`. -/
def isIdChar (c : Char) : Bool :=
  c.isUpper || c.isLower || c.isDigit || c = '_' || c = '-'

/-- Characters of the negated class `[^#\&\?\/]` that terminates the capture
group of the search regex: `true` exactly on the four excluded characters. -/
def stopChar (c : Char) : Bool :=
  c = '#' || c = '&' || c = '?' || c = '/'

/-- `re.match(r'^[A-Za-z0-9_-]{11}$', s)` succeeds. In Python, `$` matches at
the end of the string and also just before a newline that ends the string, so
a string of eleven class characters followed by a single trailing newline also
matches. -/
def bareMatch (cs : List Char) : Bool :=
  (cs.length == 11 && cs.all isIdChar) ||
  (cs.length == 12 && (cs.take 11).all isIdChar && cs.getLast? == some '\n')

/-- One alternative of the non-capturing group of the search regex: a list of
pattern characters, `some c` a literal, `none` the wildcard `.` (which in
Python matches any character except a newline). -/
abbrev Marker := List (Option Char)

/-- Match a marker against the front of the input; on success return the rest
of the input. Markers contain no quantifiers, so this is deterministic. -/
def markerMatch : Marker → List Char → Option (List Char)
  | [], cs => some cs
  | _ :: _, [] => none
  | some m :: ms, c :: cs => if c = m then markerMatch ms cs else none
  | none :: ms, c :: cs => if c = '\n' then none else markerMatch ms cs

/-- The capture group `([^#\&\?\/]{11})`: take exactly `n` characters, each
outside the stop class; fail otherwise. -/
def capture11 : Nat → List Char → Option (List Char)
  | 0, _ => some []
  | _ + 1, [] => none
  | n + 1, c :: cs => if stopChar c then none else (capture11 n cs).map (c :: ·)

/-- The eight alternatives of the search regex, in source order:
`v=`, `\/videos\/`, `embed\/`, `youtu.be\/`, `\/v\/`, `\/e\/`, `watch\?v=`, `&v=`. -/
def mVEq : Marker := [some 'v', some '=']

def mVideos : Marker :=
  [some '/', some 'v', some 'i', some 'd', some 'e', some 'o', some 's', some '/']

def mEmbed : Marker := [some 'e', some 'm', some 'b', some 'e', some 'd', some '/']

def mYoutuBe : Marker :=
  [some 'y', some 'o', some 'u', some 't', some 'u', none, some 'b', some 'e', some '/']

def mSlashV : Marker := [some '/', some 'v', some '/']

def mSlashE : Marker := [some '/', some 'e', some '/']

def mWatch : Marker :=
  [some 'w', some 'a', some 't', some 'c', some 'h', some '?', some 'v', some '=']

def mAmpV : Marker := [some '&', some 'v', some '=']

def markers : List Marker :=
  [mVEq, mVideos, mEmbed, mYoutuBe, mSlashV, mSlashE, mWatch, mAmpV]

/-- First-alternative-wins combination of a match attempt with the remaining
alternatives, as Python alternation behaves at a fixed input position. -/
def hitOr (x : Option (List Char)) (y : Option (List Char)) : Option (List Char) :=
  match x with
  | some tok => some tok
  | none => y

/-- Try a list of alternatives at the current position: the first marker that
matches and is followed by a full 11-character capture wins; a marker whose
capture fails backtracks to the next alternative. -/
def tryMarkers : List Marker → List Char → Option (List Char)
  | [], _ => none
  | m :: ms, cs =>
    hitOr ((markerMatch m cs).bind (fun rest => capture11 11 rest)) (tryMarkers ms cs)

/-- Attempt the whole search pattern at one input position. -/
def tryAt (cs : List Char) : Option (List Char) :=
  tryMarkers markers cs

/-- `re.search` of the pattern: scan positions left to right and return the
capture of the leftmost full match. -/
def reSearch : List Char → Option (List Char)
  | [] => none
  | c :: rest =>
    match tryAt (c :: rest) with
    | some tok => some tok
    | none => reSearch rest

/-- The `ValueError` message of `extract_video_id`. -/
def invalidIdMsg : String :=
  "Could not extract video ID from URL. Please provide a valid YouTube URL or video ID."

/-- `YouTubeTranscriptTool.extract_video_id`, with the raised `ValueError`
modelled as the `Except.error` case. The function is pure: it performs no
external call. -/
def extract_video_id (youtube_url : String) : Except String String :=
  if bareMatch youtube_url.data then Except.ok youtube_url
  else
    match reSearch youtube_url.data with
    | some tok => Except.ok (String.mk tok)
    | none => Except.error invalidIdMsg

/-- A recognizable URL marker followed by an 11-character token occurs at the
front of `cs`: some alternative of the search pattern matches here and the
next 11 characters are all outside the stop class. This is the position-local,
non-recursive notion used to state when an input "contains a recognizable URL
marker followed by an 11-character token". -/
def markerTokenHit (m : Marker) (cs : List Char) : Bool :=
  match markerMatch m cs with
  | some rest => decide (11 ≤ rest.length) && (rest.take 11).all (fun c => !stopChar c)
  | none => false

/-- Some alternative of the search pattern, followed by a full token, occurs
at the front of `cs`. -/
def hasMarkerTokenAt (cs : List Char) : Bool :=
  markers.any (fun m => markerTokenHit m cs)

/-! ## Output writer: segment formatting

`download_and_transcribe` writes one line per segment:
`f"[{start_time:.2f}s - {end_time:.2f}s] {text.strip()}\n"`. -/

/-- Whitespace stripped by Python `str.strip()`: the characters for which
`str.isspace()` holds, i.e. CPython's Unicode whitespace set
U+0009..U+000D, U+001C..U+001F, U+0020, U+0085, U+00A0, U+1680,
U+2000..U+200A, U+2028, U+2029, U+202F, U+205F and U+3000. -/
def pyWs (c : Char) : Bool :=
  (decide (9 ≤ c.toNat) && decide (c.toNat ≤ 13)) ||
  (decide (28 ≤ c.toNat) && decide (c.toNat ≤ 31)) ||
  decide (c.toNat = 32) || decide (c.toNat = 0x85) || decide (c.toNat = 0xa0) ||
  decide (c.toNat = 0x1680) ||
  (decide (0x2000 ≤ c.toNat) && decide (c.toNat ≤ 0x200a)) ||
  decide (c.toNat = 0x2028) || decide (c.toNat = 0x2029) ||
  decide (c.toNat = 0x202f) || decide (c.toNat = 0x205f) ||
  decide (c.toNat = 0x3000)

/-- Python `str.strip()`: drop leading and trailing whitespace. -/
def pyStrip (s : String) : String :=
  String.mk (((s.data.dropWhile pyWs).reverse.dropWhile pyWs).reverse)

/-- A Whisper output segment: `{"start": ..., "end": ..., "text": ...}`. The
time offsets are modelled as exact rationals (the Python values are floats;
`end` is a reserved word in Lean, so the field is named `stop`). -/
structure Segment where
  start : ℚ
  stop : ℚ
  text : String
  deriving DecidableEq

/-- The value printed by CPython `f"{q:.2f}"` for a nonnegative `q`, in
hundredths: `⌊100·q + 1/2⌋` computed on numerator and denominator with floor
division. CPython rounds the exact value of the float half-to-even, and a
float can never be exactly halfway between two hundredths (that would need a
denominator divisible by 25), so round-half-up on exactly representable values
coincides with it. -/
def centiOf (q : ℚ) : Int :=
  Int.fdiv (200 * q.num + (q.den : Int)) (2 * (q.den : Int))

/-- Render a value below 100 with two digits (`%02d`). -/
def twoDigits (n : Nat) : String :=
  (if n < 10 then "0" else "") ++ toString n

/-- `f"{q:.2f}"` for a nonnegative `q`. -/
def format2 (q : ℚ) : String :=
  toString ((centiOf q).toNat / 100) ++ "." ++ twoDigits ((centiOf q).toNat % 100)

/-- One line of the segments file:
`f"[{start_time:.2f}s - {end_time:.2f}s] {text.strip()}\n"`. -/
def segLine (sg : Segment) : String :=
  "[" ++ format2 sg.start ++ "s - " ++ format2 sg.stop ++ "s] " ++ pyStrip sg.text ++ "\n"

/-- The full content written to the segments file by the write loop of
`download_and_transcribe`, accumulated line by line as the `for` loop does. -/
def writeSegmentsContent (segs : List Segment) : String :=
  segs.foldl (fun acc sg => acc ++ segLine sg) ""

/-! ## Filesystem model -/

/-- A filesystem: file contents by path, plus the set of directories. -/
@[ext]
structure FS where
  files : String → Option String
  dirs : String → Bool

/-- The empty filesystem. -/
def emptyFS : FS := ⟨fun _ => none, fun _ => false⟩

/-- `open(path, "w")` followed by writing `content`: truncates and overwrites
whatever was at `path` before. -/
def writeFileFS (fs : FS) (path content : String) : FS :=
  { fs with files := fun q => if q = path then some content else fs.files q }

/-- Writing a segment sequence to a path (`writeSegments` of the spec): the
segments-file write loop of `download_and_transcribe` as a filesystem action. -/
def writeSegmentsFS (fs : FS) (path : String) (segs : List Segment) : FS :=
  writeFileFS fs path (writeSegmentsContent segs)

/-- `os.path.exists`. -/
def pathExists (fs : FS) (p : String) : Bool :=
  fs.dirs p || (fs.files p).isSome

/-- `os.makedirs` for a single-component relative path. -/
def makedirs (fs : FS) (p : String) : FS :=
  { fs with dirs := fun q => if q = p then true else fs.dirs q }

/-- `YouTubeTranscriptTool.__init__`: creates the output directory when it
does not already exist. -/
def toolInit (fs : FS) (output_directory : String) : FS :=
  if pathExists fs output_directory then fs else makedirs fs output_directory

/-! ## Session controller: `main` -/

/-- Which top-level path `main` takes. -/
inductive TopAction
  | captions
  | whisperLocal
  | invalidChoice
  deriving DecidableEq

/-- The branch selection of `main`: `"1"`, `"2"`, or anything else. -/
def dispatch (choice : String) : TopAction :=
  if choice = "1" then TopAction.captions
  else if choice = "2" then TopAction.whisperLocal
  else TopAction.invalidChoice

/-- `main` up to its top-level branch: both prompts are read and stripped,
then `YouTubeTranscriptTool()` is constructed — creating the output directory
`transcripts` if absent — and only then is the choice examined. On an
unrecognized choice the code prints a message and returns with no further
effect, so the returned pair captures the whole filesystem effect of that
path. -/
def mainController (fs : FS) (rawChoice : String) : FS × TopAction :=
  (toolInit fs "transcripts", dispatch (pyStrip rawChoice))

/-! ## `download_and_transcribe`

Modelled as a trace-producing function over a `World` describing the outcomes
of the external collaborators. Python exceptions are modelled by `PyError`;
both download failures are raised as generic `Exception`, the invalid model
and the unextractable identifier as `ValueError`. -/

/-- Outcome of invoking the `yt-dlp` subprocess. -/
inductive DlResult
  | ok
  | failed (diag : String)
  | missing
  deriving DecidableEq

/-- Outcomes of the external collaborators of `download_and_transcribe`. -/
structure World where
  dl : DlResult
  whisperText : String
  whisperSegs : List Segment
  deriving DecidableEq

/-- Externally visible effects of `download_and_transcribe`, in order:
subprocess invocations, model loads, file writes. -/
inductive Event
  | runProc (cmd : List String)
  | loadModel (name : String)
  | writeOut (path : String) (content : String)
  deriving DecidableEq

/-- The Python exception class an error is raised with, with the message
erased. -/
inductive PyErrorKind
  | valueError
  | exception
  deriving DecidableEq

/-- A raised Python exception: its class and its message. -/
inductive PyError
  | valueError (msg : String)
  | exception (msg : String)
  deriving DecidableEq

/-- Forget the message; keep only the exception class. -/
def PyError.kind : PyError → PyErrorKind
  | .valueError _ => .valueError
  | .exception _ => .exception

/-- `YouTubeTranscriptTool.WHISPER_MODELS`, in source order. -/
def WHISPER_MODELS : List String :=
  ["tiny", "tiny.en", "base", "base.en", "small", "small.en", "medium", "medium.en",
   "large", "large-v1", "large-v2", "large-v3", "large-v3-turbo", "turbo"]

/-- The `ValueError` message for a model name outside the closed set. -/
def invalidModelMsg : String :=
  "Invalid model name. Choose from: " ++ String.intercalate ", " WHISPER_MODELS

/-- The `Exception` message when the `yt-dlp` executable is not found. -/
def ytdlpMissingMsg : String :=
  "yt-dlp not found. Please install it with \x27pip install yt-dlp\x27"

/-- The `Exception` message wrapping a non-zero `yt-dlp` exit. -/
def downloadFailedMsg (diag : String) : String :=
  "Failed to download video: " ++ diag

/-- The dictionary returned by `download_and_transcribe`. -/
structure DTResult where
  video_id : String
  transcript : String
  segments : List Segment
  transcript_file : String
  segments_file : String
  audio_file : String
  deriving DecidableEq

/-- `YouTubeTranscriptTool.download_and_transcribe`, returning the trace of
external effects together with the result or the raised exception. The model
check happens first; then the identifier is resolved; the canonical watch URL
is used when the resolved identifier has length 11, otherwise the raw input is
passed through; a missing downloader aborts before any subprocess runs; a
non-zero exit aborts after it; on success the Whisper model is loaded and the
two output files are written. -/
def download_and_transcribe (w : World)
    (output_directory youtube_url model_name : String) :
    List Event × Except PyError DTResult :=
  if model_name ∈ WHISPER_MODELS then
    match extract_video_id youtube_url with
    | Except.error msg => ([], Except.error (PyError.valueError msg))
    | Except.ok video_id =>
      let audio_file := output_directory ++ "/" ++ video_id ++ ".mp3"
      let youtube_full_url :=
        if video_id.length = 11 then "https://www.youtube.com/watch?v=" ++ video_id
        else youtube_url
      let command := ["yt-dlp", "-x", "--audio-format", "mp3", "--audio-quality", "0",
        "-o", audio_file, youtube_full_url]
      match w.dl with
      | DlResult.missing => ([], Except.error (PyError.exception ytdlpMissingMsg))
      | DlResult.failed diag =>
        ([Event.runProc command], Except.error (PyError.exception (downloadFailedMsg diag)))
      | DlResult.ok =>
        let transcript_file := output_directory ++ "/" ++ video_id ++ "_transcript.txt"
        let segments_file := output_directory ++ "/" ++ video_id ++ "_segments.txt"
        ([Event.runProc command, Event.loadModel model_name,
          Event.writeOut transcript_file w.whisperText,
          Event.writeOut segments_file (writeSegmentsContent w.whisperSegs)],
         Except.ok ⟨video_id, w.whisperText, w.whisperSegs, transcript_file,
           segments_file, audio_file⟩)
  else ([], Except.error (PyError.valueError invalidModelMsg))

/-! Basic lemmas about the resolver model. -/

theorem string_data_mk (l : List Char) : (String.mk l).data = l := rfl

theorem bareMatch_eq_false_of_long (cs : List Char) (h : 12 < cs.length) :
    bareMatch cs = false := by
  unfold bareMatch
  have h11 : (cs.length == 11) = false := by
    rw [beq_eq_false_iff_ne]; omega
  have h12 : (cs.length == 12) = false := by
    rw [beq_eq_false_iff_ne]; omega
  simp [h11, h12]

theorem capture11_exact_len (t r : List Char)
    (hall : t.all (fun c => !stopChar c) = true) :
    capture11 t.length (t ++ r) = some t := by
  induction t with
  | nil => rfl
  | cons c cs ih =>
    simp only [List.all_cons, Bool.and_eq_true, Bool.not_eq_true'] at hall
    simp only [List.length_cons, List.cons_append, capture11, hall.1,
      Bool.false_eq_true, if_false, List.append_eq]
    rw [ih hall.2]
    rfl

theorem capture11_exact (t r : List Char) (hlen : t.length = 11)
    (hall : t.all (fun c => !stopChar c) = true) :
    capture11 11 (t ++ r) = some t := by
  rw [← hlen]; exact capture11_exact_len t r hall

theorem capture11_some (n : Nat) (cs tok : List Char)
    (h : capture11 n cs = some tok) :
    tok = cs.take n ∧ n ≤ cs.length ∧ (cs.take n).all (fun c => !stopChar c) = true := by
  induction n generalizing cs tok with
  | zero =>
    simp only [capture11, Option.some.injEq] at h
    simp [← h]
  | succ n ih =>
    cases cs with
    | nil => simp [capture11] at h
    | cons c cs =>
      rw [capture11] at h
      by_cases hc : stopChar c = true
      · rw [hc] at h; simp at h
      · have hc' : stopChar c = false := by simpa using hc
        rw [hc'] at h
        simp only [Bool.false_eq_true, if_false, Option.map_eq_some'] at h
        obtain ⟨tok', h1, h2⟩ := h
        obtain ⟨e1, e2, e3⟩ := ih cs tok' h1
        refine ⟨by rw [← h2, e1, List.take_succ_cons], ?_, ?_⟩
        · simp only [List.length_cons]; omega
        · rw [List.take_succ_cons]
          simp only [List.all_cons, e3, Bool.and_true]
          simp [hc']

theorem capture11_some_length (n : Nat) (cs tok : List Char)
    (h : capture11 n cs = some tok) : tok.length = n := by
  obtain ⟨e1, e2, _⟩ := capture11_some n cs tok h
  subst e1
  simp only [List.length_take]
  omega

theorem tryMarkers_some_length (ms : List Marker) (cs tok : List Char)
    (h : tryMarkers ms cs = some tok) : tok.length = 11 := by
  induction ms with
  | nil => simp [tryMarkers] at h
  | cons m ms ih =>
    rw [tryMarkers] at h
    rcases hx : (markerMatch m cs).bind (fun rest => capture11 11 rest) with _ | tok'
    · rw [hx] at h
      simp only [hitOr] at h
      exact ih h
    · rw [hx] at h
      simp only [hitOr, Option.some.injEq] at h
      subst h
      obtain ⟨rest, -, hcap⟩ := Option.bind_eq_some.mp hx
      exact capture11_some_length 11 rest _ hcap

theorem reSearch_cons_none (c : Char) (rest : List Char)
    (h : tryAt (c :: rest) = none) : reSearch (c :: rest) = reSearch rest := by
  rw [reSearch, h]

theorem reSearch_some_length (cs tok : List Char) (h : reSearch cs = some tok) :
    tok.length = 11 := by
  induction cs with
  | nil => simp [reSearch] at h
  | cons c rest ih =>
    rcases ht : tryAt (c :: rest) with _ | tok'
    · rw [reSearch_cons_none c rest ht] at h
      exact ih h
    · rw [reSearch, ht] at h
      simp only [Option.some.injEq] at h
      subst h
      exact tryMarkers_some_length markers _ _ ht

theorem reSearch_skip (p cs : List Char)
    (h : ∀ i, i < p.length → tryAt (p.drop i ++ cs) = none) :
    reSearch (p ++ cs) = reSearch cs := by
  induction p with
  | nil => rfl
  | cons c p ih =>
    have h0 : tryAt (c :: (p ++ cs)) = none := h 0 (by simp)
    rw [List.cons_append, reSearch_cons_none _ _ h0]
    exact ih (fun i hi => h (i + 1) (by simpa using Nat.succ_lt_succ hi))

theorem tryAt_nil : tryAt ([] : List Char) = none := by decide

theorem reSearch_hit (cs tok : List Char) (h : tryAt cs = some tok) :
    reSearch cs = some tok := by
  cases cs with
  | nil => rw [tryAt_nil] at h; exact Option.noConfusion h
  | cons c rest => rw [reSearch, h]

theorem stop_not_id (c : Char) (h : stopChar c = true) : isIdChar c = false := by
  unfold stopChar at h
  simp only [Bool.or_eq_true, decide_eq_true_eq] at h
  rcases h with ((h | h) | h) | h <;> subst h <;> decide

theorem idAll_not_stop (t : List Char) (h : t.all isIdChar = true) :
    t.all (fun c => !stopChar c) = true := by
  rw [List.all_eq_true] at h ⊢
  intro c hc
  have hid := h c hc
  by_cases hs : stopChar c = true
  · rw [stop_not_id c hs] at hid
    exact absurd hid (by simp)
  · simpa using hs

theorem tryAt_watch_hit (l : List Char) :
    tryAt ("watch?v=".data ++ l) =
      hitOr (capture11 11 l) (tryMarkers [mAmpV] ("watch?v=".data ++ l)) := rfl

theorem reSearch_watch (t r : List Char) (hcap : capture11 11 (t ++ r) = some t) :
    reSearch ("https://www.youtube.com/watch?v=".data ++ t ++ r) = some t := by
  have e : "https://www.youtube.com/watch?v=".data ++ t ++ r
      = "https://www.youtube.com/".data ++ ("watch?v=".data ++ (t ++ r)) := rfl
  rw [e, reSearch_skip]
  · refine reSearch_hit _ _ ?_
    rw [tryAt_watch_hit (t ++ r), hcap]
    rfl
  · intro i hi
    rw [show ("https://www.youtube.com/".data).length = 24 from rfl] at hi
    interval_cases i <;> rfl

theorem extract_of_search (s : String) (t : List Char)
    (hb : bareMatch s.data = false) (hs : reSearch s.data = some t) :
    extract_video_id s = Except.ok (String.mk t) := by
  unfold extract_video_id
  rw [hb, hs]
  simp

theorem tryAt_short_hit (l : List Char) :
    tryAt ("youtu.be/".data ++ l) =
      hitOr (capture11 11 l)
        (tryMarkers [mSlashV, mSlashE, mWatch, mAmpV] ("youtu.be/".data ++ l)) := rfl

theorem reSearch_short (t r : List Char) (hcap : capture11 11 (t ++ r) = some t) :
    reSearch ("https://youtu.be/".data ++ t ++ r) = some t := by
  have e : "https://youtu.be/".data ++ t ++ r
      = "https://".data ++ ("youtu.be/".data ++ (t ++ r)) := rfl
  rw [e, reSearch_skip]
  · refine reSearch_hit _ _ ?_
    rw [tryAt_short_hit (t ++ r), hcap]
    rfl
  · intro i hi
    rw [show ("https://".data).length = 8 from rfl] at hi
    interval_cases i <;> rfl

theorem tryAt_embed_hit (l : List Char) :
    tryAt ("embed/".data ++ l) =
      hitOr (capture11 11 l)
        (tryMarkers [mYoutuBe, mSlashV, mSlashE, mWatch, mAmpV] ("embed/".data ++ l)) := rfl

theorem reSearch_embed (t r : List Char) (hcap : capture11 11 (t ++ r) = some t) :
    reSearch ("https://www.youtube.com/embed/".data ++ t ++ r) = some t := by
  have e : "https://www.youtube.com/embed/".data ++ t ++ r
      = "https://www.youtube.com/".data ++ ("embed/".data ++ (t ++ r)) := rfl
  rw [e, reSearch_skip]
  · refine reSearch_hit _ _ ?_
    rw [tryAt_embed_hit (t ++ r), hcap]
    rfl
  · intro i hi
    rw [show ("https://www.youtube.com/".data).length = 24 from rfl] at hi
    interval_cases i <;> rfl

theorem tryAt_slashV_hit (l : List Char) :
    tryAt ("/v/".data ++ l) =
      hitOr (capture11 11 l)
        (tryMarkers [mSlashE, mWatch, mAmpV] ("/v/".data ++ l)) := rfl

theorem reSearch_slashV (t r : List Char) (hcap : capture11 11 (t ++ r) = some t) :
    reSearch ("https://www.youtube.com/v/".data ++ t ++ r) = some t := by
  have e : "https://www.youtube.com/v/".data ++ t ++ r
      = "https://www.youtube.com".data ++ ("/v/".data ++ (t ++ r)) := rfl
  rw [e, reSearch_skip]
  · refine reSearch_hit _ _ ?_
    rw [tryAt_slashV_hit (t ++ r), hcap]
    rfl
  · intro i hi
    rw [show ("https://www.youtube.com".data).length = 23 from rfl] at hi
    interval_cases i <;> rfl

theorem tryAt_slashE_hit (l : List Char) :
    tryAt ("/e/".data ++ l) =
      hitOr (capture11 11 l) (tryMarkers [mWatch, mAmpV] ("/e/".data ++ l)) := rfl

theorem reSearch_slashE (t r : List Char) (hcap : capture11 11 (t ++ r) = some t) :
    reSearch ("https://www.youtube.com/e/".data ++ t ++ r) = some t := by
  have e : "https://www.youtube.com/e/".data ++ t ++ r
      = "https://www.youtube.com".data ++ ("/e/".data ++ (t ++ r)) := rfl
  rw [e, reSearch_skip]
  · refine reSearch_hit _ _ ?_
    rw [tryAt_slashE_hit (t ++ r), hcap]
    rfl
  · intro i hi
    rw [show ("https://www.youtube.com".data).length = 23 from rfl] at hi
    interval_cases i <;> rfl

theorem tryAt_videos_hit (l : List Char) :
    tryAt ("/videos/".data ++ l) =
      hitOr (capture11 11 l)
        (tryMarkers [mEmbed, mYoutuBe, mSlashV, mSlashE, mWatch, mAmpV]
          ("/videos/".data ++ l)) := rfl

theorem reSearch_videos (t r : List Char) (hcap : capture11 11 (t ++ r) = some t) :
    reSearch ("https://www.youtube.com/videos/".data ++ t ++ r) = some t := by
  have e : "https://www.youtube.com/videos/".data ++ t ++ r
      = "https://www.youtube.com".data ++ ("/videos/".data ++ (t ++ r)) := rfl
  rw [e, reSearch_skip]
  · refine reSearch_hit _ _ ?_
    rw [tryAt_videos_hit (t ++ r), hcap]
    rfl
  · intro i hi
    rw [show ("https://www.youtube.com".data).length = 23 from rfl] at hi
    interval_cases i <;> rfl

/-- C1: for every known platform URL shape (watch-query, short-link, embed,
and the legacy `/v/`, `/e/`, `/videos/` variants) embedding a valid
11-character token, `extract_video_id` returns exactly the embedded token for
any trailing suffix (in particular for any trailing query parameters); and the
two concrete scenario inputs resolve to `dQw4w9WgXcQ`. -/
theorem C1_resolve_url_shapes :
    (∀ t r : List Char, t.length = 11 → t.all isIdChar = true →
      extract_video_id (String.mk ("https://www.youtube.com/watch?v=".data ++ t ++ r))
          = Except.ok (String.mk t)
      ∧ extract_video_id (String.mk ("https://youtu.be/".data ++ t ++ r))
          = Except.ok (String.mk t)
      ∧ extract_video_id (String.mk ("https://www.youtube.com/embed/".data ++ t ++ r))
          = Except.ok (String.mk t)
      ∧ extract_video_id (String.mk ("https://www.youtube.com/v/".data ++ t ++ r))
          = Except.ok (String.mk t)
      ∧ extract_video_id (String.mk ("https://www.youtube.com/e/".data ++ t ++ r))
          = Except.ok (String.mk t)
      ∧ extract_video_id (String.mk ("https://www.youtube.com/videos/".data ++ t ++ r))
          = Except.ok (String.mk t))
    ∧ extract_video_id "https://www.youtube.com/watch?v=dQw4w9WgXcQ&t=5s"
        = Except.ok "dQw4w9WgXcQ"
    ∧ extract_video_id "https://youtu.be/dQw4w9WgXcQ" = Except.ok "dQw4w9WgXcQ" := by
  refine ⟨fun t r hlen hall => ?_, rfl, rfl⟩
  have hcap : capture11 11 (t ++ r) = some t :=
    capture11_exact t r hlen (idAll_not_stop t hall)
  refine ⟨?_, ?_, ?_, ?_, ?_, ?_⟩
  · refine extract_of_search _ t ?_ ?_
    · rw [string_data_mk]
      refine bareMatch_eq_false_of_long _ ?_
      rw [List.length_append, List.length_append,
        show ("https://www.youtube.com/watch?v=".data).length = 32 from rfl]
      omega
    · rw [string_data_mk]; exact reSearch_watch t r hcap
  · refine extract_of_search _ t ?_ ?_
    · rw [string_data_mk]
      refine bareMatch_eq_false_of_long _ ?_
      rw [List.length_append, List.length_append,
        show ("https://youtu.be/".data).length = 17 from rfl]
      omega
    · rw [string_data_mk]; exact reSearch_short t r hcap
  · refine extract_of_search _ t ?_ ?_
    · rw [string_data_mk]
      refine bareMatch_eq_false_of_long _ ?_
      rw [List.length_append, List.length_append,
        show ("https://www.youtube.com/embed/".data).length = 30 from rfl]
      omega
    · rw [string_data_mk]; exact reSearch_embed t r hcap
  · refine extract_of_search _ t ?_ ?_
    · rw [string_data_mk]
      refine bareMatch_eq_false_of_long _ ?_
      rw [List.length_append, List.length_append,
        show ("https://www.youtube.com/v/".data).length = 26 from rfl]
      omega
    · rw [string_data_mk]; exact reSearch_slashV t r hcap
  · refine extract_of_search _ t ?_ ?_
    · rw [string_data_mk]
      refine bareMatch_eq_false_of_long _ ?_
      rw [List.length_append, List.length_append,
        show ("https://www.youtube.com/e/".data).length = 26 from rfl]
      omega
    · rw [string_data_mk]; exact reSearch_slashE t r hcap
  · refine extract_of_search _ t ?_ ?_
    · rw [string_data_mk]
      refine bareMatch_eq_false_of_long _ ?_
      rw [List.length_append, List.length_append,
        show ("https://www.youtube.com/videos/".data).length = 31 from rfl]
      omega
    · rw [string_data_mk]; exact reSearch_videos t r hcap

/-- C1 witness: the universally quantified part of `C1_resolve_url_shapes`
applied at the concrete token `dQw4w9WgXcQ` and suffix `&t=5s`. -/
theorem C1_resolve_url_shapes_witness :
    extract_video_id
        (String.mk ("https://www.youtube.com/watch?v=".data ++ "dQw4w9WgXcQ".data ++ "&t=5s".data))
      = Except.ok (String.mk "dQw4w9WgXcQ".data) :=
  (C1_resolve_url_shapes.1 "dQw4w9WgXcQ".data "&t=5s".data (by decide) (by decide)).1

/-- C2: `extract_video_id` is the identity on every valid bare token:
any string of exactly 11 characters drawn from letters, digits, hyphen and
underscore is returned unchanged. -/
theorem C2_resolve_identity_on_bare (s : String) (hlen : s.length = 11)
    (hall : s.data.all isIdChar = true) :
    extract_video_id s = Except.ok s := by
  have hd : s.data.length = 11 := hlen
  have hb : bareMatch s.data = true := by
    unfold bareMatch
    rw [hd]
    simp [hall]
  unfold extract_video_id
  rw [hb]
  simp

/-- C2 witness: the scenario input `dQw4w9WgXcQ` is returned unchanged. -/
theorem C2_resolve_identity_on_bare_witness :
    extract_video_id "dQw4w9WgXcQ" = Except.ok "dQw4w9WgXcQ" :=
  C2_resolve_identity_on_bare "dQw4w9WgXcQ" (by decide) (by decide)

theorem capture11_none_of (cs : List Char)
    (h : ¬(11 ≤ cs.length ∧ (cs.take 11).all (fun c => !stopChar c) = true)) :
    capture11 11 cs = none := by
  rcases hcap : capture11 11 cs with _ | tok
  · rfl
  · obtain ⟨-, h2, h3⟩ := capture11_some 11 cs tok hcap
    exact absurd ⟨h2, h3⟩ h

theorem tryMarkers_none (ms : List Marker) (cs : List Char)
    (h : ∀ m ∈ ms, markerTokenHit m cs = false) : tryMarkers ms cs = none := by
  induction ms with
  | nil => rfl
  | cons m ms ih =>
    rw [tryMarkers]
    have hm := h m (by simp)
    have htail : tryMarkers ms cs = none :=
      ih (fun m' hm' => h m' (by simp [hm']))
    rcases hmm : markerMatch m cs with _ | rest
    · simp [hitOr, htail]
    · have hm' : (decide (11 ≤ rest.length)
          && (rest.take 11).all (fun c => !stopChar c)) = false := by
        unfold markerTokenHit at hm
        rw [hmm] at hm
        exact hm
      have hcap : capture11 11 rest = none := by
        refine capture11_none_of rest ?_
        rintro ⟨h1, h2⟩
        simp [h1, h2] at hm'
      simp [hitOr, hcap, htail]

theorem tryAt_none_of (cs : List Char) (h : hasMarkerTokenAt cs = false) :
    tryAt cs = none := by
  unfold hasMarkerTokenAt at h
  rw [List.any_eq_false] at h
  exact tryMarkers_none markers cs (fun m hm => by simpa using h m hm)

theorem reSearch_none_of (cs : List Char)
    (h : ∀ i, hasMarkerTokenAt (cs.drop i) = false) : reSearch cs = none := by
  induction cs with
  | nil => rfl
  | cons c rest ih =>
    rw [reSearch_cons_none c rest (tryAt_none_of _ (h 0))]
    exact ih (fun i => h (i + 1))

/-- C3: on any input that neither matches the bare-token pattern nor contains,
at any position, a recognizable URL marker followed by an 11-character token,
`extract_video_id` fails with the `ValueError` carrying `invalidIdMsg`. The
function is pure, so no external call can occur before the failure. -/
theorem C3_invalid_input_fails (s : String)
    (hb : bareMatch s.data = false)
    (hm : ∀ i, hasMarkerTokenAt (s.data.drop i) = false) :
    extract_video_id s = Except.error invalidIdMsg := by
  unfold extract_video_id
  rw [hb, reSearch_none_of _ hm]
  simp

/-- C3 witness at the concrete input `"hello world"`. -/
theorem C3_invalid_input_fails_witness :
    extract_video_id "hello world" = Except.error invalidIdMsg :=
  C3_invalid_input_fails "hello world" (by decide) (fun i => by
    rcases Nat.lt_or_ge i 11 with h | h
    · interval_cases i <;> decide
    · have e : ("hello world".data).drop i = [] :=
        List.drop_eq_nil_of_le
          (by rw [show ("hello world".data).length = 11 from rfl]; omega)
      rw [e]
      decide)

/-- C4: for every model name outside the closed set `WHISPER_MODELS`,
`download_and_transcribe` fails with the `ValueError` carrying
`invalidModelMsg` and an empty effect trace: no subprocess is launched, no
model is loaded, and no file is written. -/
theorem C4_invalid_model_rejected_first (w : World) (dir url m : String)
    (h : m ∉ WHISPER_MODELS) :
    download_and_transcribe w dir url m
      = ([], Except.error (PyError.valueError invalidModelMsg)) := by
  unfold download_and_transcribe
  rw [if_neg h]

/-- C4 witness at the scenario model name `"huge"`. -/
theorem C4_invalid_model_rejected_first_witness :
    download_and_transcribe ⟨DlResult.ok, "", []⟩ "transcripts" "dQw4w9WgXcQ" "huge"
      = ([], Except.error (PyError.valueError invalidModelMsg)) :=
  C4_invalid_model_rejected_first _ _ _ _ (by decide)

/-- C10: model validation precedes identifier resolution: every invalid model
name fails with the invalid-model `ValueError` no matter how malformed the
URL argument is, and the invalid-identifier `ValueError` can only arise when
the model name is in the closed set. -/
theorem C10_model_check_precedes_resolution :
    (∀ (w : World) (dir url m : String), m ∉ WHISPER_MODELS →
        (download_and_transcribe w dir url m).2
          = Except.error (PyError.valueError invalidModelMsg))
    ∧ (∀ (w : World) (dir url m : String),
        (download_and_transcribe w dir url m).2
            = Except.error (PyError.valueError invalidIdMsg) →
        m ∈ WHISPER_MODELS) := by
  constructor
  · intro w dir url m h
    unfold download_and_transcribe
    rw [if_neg h]
  · intro w dir url m h
    by_contra hm
    unfold download_and_transcribe at h
    rw [if_neg hm] at h
    have : invalidModelMsg = invalidIdMsg := by simpa using h
    exact absurd this (by decide)

/-- C10 witness: an invalid model name combined with a malformed URL still
yields the invalid-model error. -/
theorem C10_model_check_precedes_resolution_witness :
    (download_and_transcribe ⟨DlResult.ok, "", []⟩ "transcripts" "not a url!!!" "huge").2
      = Except.error (PyError.valueError invalidModelMsg) :=
  C10_model_check_precedes_resolution.1 _ _ _ _ (by decide)

/-- C7 counterexample: a missing downloader and a failing downloader are both
raised as the same generic `Exception` kind; at these concrete inputs the two
error kinds are equal, so the two failures are not distinguishable as error
kinds, contrary to the claim. -/
theorem C7_counterexample :
    (download_and_transcribe ⟨DlResult.missing, "", []⟩
        "transcripts" "dQw4w9WgXcQ" "base").2
      = Except.error (PyError.exception ytdlpMissingMsg)
    ∧ (download_and_transcribe ⟨DlResult.failed "boom", "", []⟩
        "transcripts" "dQw4w9WgXcQ" "base").2
      = Except.error (PyError.exception (downloadFailedMsg "boom"))
    ∧ (PyError.exception ytdlpMissingMsg).kind
        = (PyError.exception (downloadFailedMsg "boom")).kind :=
  ⟨rfl, rfl, rfl⟩

/-- C7 amended: a missing downloader fails with the fixed message
`ytdlpMissingMsg` and a non-zero downloader exit with
`downloadFailedMsg diag`; both are raised with the same generic `Exception`
kind, and the two failures are distinguishable only by their message text,
which always differs. -/
theorem C7_downloader_errors_distinct_by_message (w : World)
    (dir url m vid diag : String) (hm : m ∈ WHISPER_MODELS)
    (hv : extract_video_id url = Except.ok vid) :
    (download_and_transcribe ⟨DlResult.missing, w.whisperText, w.whisperSegs⟩ dir url m).2
        = Except.error (PyError.exception ytdlpMissingMsg)
    ∧ (download_and_transcribe ⟨DlResult.failed diag, w.whisperText, w.whisperSegs⟩ dir url m).2
        = Except.error (PyError.exception (downloadFailedMsg diag))
    ∧ (PyError.exception ytdlpMissingMsg).kind
        = (PyError.exception (downloadFailedMsg diag)).kind
    ∧ ytdlpMissingMsg ≠ downloadFailedMsg diag := by
  refine ⟨?_, ?_, rfl, ?_⟩
  · unfold download_and_transcribe
    rw [if_pos hm, hv]
  · unfold download_and_transcribe
    rw [if_pos hm, hv]
  · intro hco
    have h1 : ytdlpMissingMsg.data.head? = some 'y' := rfl
    rw [hco] at h1
    have h2 : (downloadFailedMsg diag).data.head? = some 'F' := rfl
    rw [h1] at h2
    exact absurd h2 (by simp)

/-- C7 witness for the amended statement, at concrete inputs. -/
theorem C7_downloader_errors_distinct_by_message_witness :
    (download_and_transcribe ⟨DlResult.missing, "", []⟩ "transcripts" "dQw4w9WgXcQ" "tiny").2
      = Except.error (PyError.exception ytdlpMissingMsg) :=
  (C7_downloader_errors_distinct_by_message ⟨DlResult.ok, "", []⟩
    "transcripts" "dQw4w9WgXcQ" "tiny" "dQw4w9WgXcQ" "oops" (by decide) rfl).1

/-- C9 counterexample: the bare-token regex of `extract_video_id` also
matches eleven identifier characters followed by one trailing newline
(Python `$` matches before a final newline), and then the 12-character input
is returned unchanged; in `download_and_transcribe` the length-11 test fails
for it and the raw user input is passed through to the downloader. -/
theorem C9_counterexample :
    extract_video_id "AAAAAAAAAAA\n" = Except.ok "AAAAAAAAAAA\n"
    ∧ ("AAAAAAAAAAA\n" : String).length = 12
    ∧ (download_and_transcribe ⟨DlResult.ok, "", []⟩
          "transcripts" "AAAAAAAAAAA\n" "base").1.head?
        = some (Event.runProc ["yt-dlp", "-x", "--audio-format", "mp3",
            "--audio-quality", "0", "-o", "transcripts/AAAAAAAAAAA\n.mp3",
            "AAAAAAAAAAA\n"]) :=
  ⟨rfl, rfl, rfl⟩

/-- C9 amended: whenever `extract_video_id` returns a value, that value has
length 11, or it is the input string itself, has length 12 and ends in a
newline (the trailing-newline bare match). Only in the second case can the
raw-input pass-through branch of `download_and_transcribe` be reached. -/
theorem C9_extract_ok_length (s r : String)
    (h : extract_video_id s = Except.ok r) :
    r.length = 11 ∨ (r = s ∧ r.length = 12 ∧ r.data.getLast? = some '\n') := by
  unfold extract_video_id at h
  by_cases hb : bareMatch s.data = true
  · rw [if_pos hb] at h
    injection h with hsr
    subst hsr
    unfold bareMatch at hb
    rcases (Bool.or_eq_true _ _).mp hb with h1 | h2
    · left
      rcases (Bool.and_eq_true _ _).mp h1 with ⟨hl, -⟩
      show s.data.length = 11
      exact beq_iff_eq.mp hl
    · right
      rcases (Bool.and_eq_true _ _).mp h2 with ⟨h3, hlast⟩
      rcases (Bool.and_eq_true _ _).mp h3 with ⟨hl, -⟩
      refine ⟨rfl, ?_, eq_of_beq hlast⟩
      show s.data.length = 12
      exact beq_iff_eq.mp hl
  · rw [if_neg hb] at h
    rcases hr : reSearch s.data with _ | tok
    · rw [hr] at h
      exact absurd h (by simp)
    · rw [hr] at h
      injection h with hsr
      left
      rw [← hsr]
      exact reSearch_some_length _ _ hr

/-- C9 witness for the amended statement at a length-11 input. -/
theorem C9_extract_ok_length_witness :
    ("dQw4w9WgXcQ" : String).length = 11
    ∨ (("dQw4w9WgXcQ" : String) = "dQw4w9WgXcQ"
        ∧ ("dQw4w9WgXcQ" : String).length = 12
        ∧ ("dQw4w9WgXcQ" : String).data.getLast? = some '\n') :=
  C9_extract_ok_length "dQw4w9WgXcQ" "dQw4w9WgXcQ" rfl

theorem string_eq_of_data (a b : String) (h : a.data = b.data) : a = b := by
  cases a
  cases b
  exact congrArg String.mk h

theorem foldl_segLine_data (segs : List Segment) (acc : String) :
    (segs.foldl (fun a sg => a ++ segLine sg) acc).data
      = acc.data ++ ((segs.map segLine).map String.data).flatten := by
  induction segs generalizing acc with
  | nil => simp
  | cons sg rest ih =>
    simp only [List.foldl_cons, List.map_cons, List.flatten_cons]
    rw [ih]
    show acc.data ++ (segLine sg).data ++ _ = _
    rw [List.append_assoc]

/-- C5: the segments file holds exactly one line per segment, of the form
`[<start, 2 decimals>s - <end, 2 decimals>s] <stripped text>` terminated by a
newline; and the two-segment scenario produces exactly
`[0.00s - 1.50s] hello\n[1.50s - 3.00s] world\n`. -/
theorem C5_segments_file_format :
    (∀ segs : List Segment,
      writeSegmentsContent segs
        = String.join (segs.map (fun sg =>
            "[" ++ format2 sg.start ++ "s - " ++ format2 sg.stop ++ "s] "
              ++ pyStrip sg.text ++ "\n")))
    ∧ writeSegmentsContent
        [⟨mkRat 0 1, mkRat 3 2, "hello"⟩, ⟨mkRat 3 2, mkRat 3 1, "world"⟩]
      = "[0.00s - 1.50s] hello\n[1.50s - 3.00s] world\n" := by
  constructor
  · intro segs
    apply string_eq_of_data
    unfold writeSegmentsContent
    rw [foldl_segLine_data segs "", String.data_join]
    rfl
  · rfl

/-- C6: `writeSegments` is idempotent — writing the same segment sequence to
the same path twice leaves a filesystem (and hence a file) byte-identical to
writing it once — and it overwrites unconditionally: whatever was at the path
before, afterwards the file holds exactly the formatted content; directories
are untouched. -/
theorem C6_writeSegments_idempotent_overwrite (fs : FS) (p : String)
    (segs : List Segment) :
    writeSegmentsFS (writeSegmentsFS fs p segs) p segs = writeSegmentsFS fs p segs
    ∧ (writeSegmentsFS fs p segs).files p = some (writeSegmentsContent segs)
    ∧ (writeSegmentsFS fs p segs).dirs = fs.dirs := by
  refine ⟨?_, ?_, rfl⟩
  · unfold writeSegmentsFS writeFileFS
    refine FS.ext ?_ rfl
    funext q
    by_cases hq : q = p <;> simp [hq]
  · unfold writeSegmentsFS writeFileFS
    simp

/-- C8 counterexample: with an empty filesystem and the unrecognized choice
`"3"`, the controller takes the invalid-choice path but still creates the
`transcripts` directory (the tool is constructed before the choice is
examined), so the invalid-choice path is not free of filesystem effects. -/
theorem C8_counterexample :
    (mainController emptyFS "3").2 = TopAction.invalidChoice
    ∧ (mainController emptyFS "3").1.dirs "transcripts" = true
    ∧ emptyFS.dirs "transcripts" = false :=
  ⟨rfl, rfl, rfl⟩

/-- C8 amended: on any unrecognized top-level choice the controller reports
the invalid choice and exits; its only filesystem effect is the creation of
the output directory `transcripts` if absent, performed by tool construction
before the choice is examined: no file is created or modified, and no other
directory is touched. -/
theorem C8_invalid_choice_effects (fs : FS) (rawChoice : String)
    (h1 : pyStrip rawChoice ≠ "1") (h2 : pyStrip rawChoice ≠ "2") :
    (mainController fs rawChoice).2 = TopAction.invalidChoice
    ∧ (mainController fs rawChoice).1.files = fs.files
    ∧ ∀ d, d ≠ "transcripts" → (mainController fs rawChoice).1.dirs d = fs.dirs d := by
  refine ⟨?_, ?_, ?_⟩
  · show dispatch (pyStrip rawChoice) = TopAction.invalidChoice
    unfold dispatch
    rw [if_neg h1, if_neg h2]
  · show (toolInit fs "transcripts").files = fs.files
    unfold toolInit makedirs
    by_cases hp : pathExists fs "transcripts" = true
    · rw [if_pos hp]
    · rw [if_neg hp]
  · intro d hd
    show (toolInit fs "transcripts").dirs d = fs.dirs d
    unfold toolInit makedirs
    by_cases hp : pathExists fs "transcripts" = true
    · rw [if_pos hp]
    · rw [if_neg hp]
      simp [hd]

/-- C8 witness for the amended statement at the unrecognized choice `"9"`. -/
theorem C8_invalid_choice_effects_witness :
    (mainController emptyFS "9").2 = TopAction.invalidChoice :=
  (C8_invalid_choice_effects emptyFS "9" (by decide) (by decide)).1
